import Mathlib

/-!
Verification development for the Toolbar overflow-layout engine
(packages/fluentui/react-northstar/src/components/Toolbar/Toolbar.tsx)
and the popup accessibility behavior descriptor.

The embedding is shallow: DOM bounding rectangles become records of
integers, element attribute state becomes a record of optional strings
(attribute absent = none; JavaScript string truthiness: the empty string is
falsy), and the single mutable pass of hideOverflowItems becomes a pure
state-passing function.  Items are modelled atomically: the toolbar item at
DOM position i has element id i, and the overflow indicator (rendered as the
last child) has element id equal to the number of real items.
-/

/-- ClientRect as read by getBoundingClientRect: only the fields the code
reads (left, right, top, width) are modelled.  Coordinates are integers (the code computes with JavaScript numbers; the algorithm only adds, subtracts and compares them). -/
structure Rect where
  left : Int
  right : Int
  top : Int
  width : Int
deriving DecidableEq, Repr

/-- Geometry of one real toolbar item: its bounding rectangle and the parsed
computed-style margins.  A margin of none models parseFloat returning NaN
(missing computed value); the code applies "|| 0" on top of the parse. -/
structure ItemGeom where
  rect : Rect
  marginLeft : Option Int
  marginRight : Option Int
deriving DecidableEq, Repr

/-- Mutable per-element state touched by hide/show: the inline visibility
flag, the IS_FOCUSABLE_ATTRIBUTE value and the WAS_FOCUSABLE_ATTRIBUTE value
(none = attribute absent). -/
structure ItemState where
  hidden : Bool
  isFocusable : Option String
  wasFocusable : Option String
deriving DecidableEq, Repr

/-- JavaScript truthiness of a getAttribute result: null (none) and the
empty string are falsy, every other string is truthy. -/
def truthy : Option String → Bool
  | none => false
  | some s => !(s = "")

/-- Environment of one layout pass: the direction flag, the three measured
rectangles, the per-item geometry (in DOM order), the overflowOpen prop, and
the focus environment used by hide (containerRef.current being set, and the
result of the first-focusable query). -/
structure PassEnv where
  rtl : Bool
  containerRect : Rect
  overflowItemRect : Rect
  offsetMeasureRect : Rect
  itemGeoms : List ItemGeom
  overflowOpen : Bool
  containerSet : Bool
  firstFocusable : Option Nat
deriving DecidableEq, Repr

/-- Modelled from the spec: getFirstFocusable is imported from
@fluentui/react-bindings and is not part of this repository; per the spec it
returns the first focusable element inside the container (or nothing), so
it is carried as an abstract optional element id in the pass environment. -/
def getFirstFocusable (env : PassEnv) : Option Nat := env.firstFocusable

/-- Translation of the hide function: no-op on an already hidden element;
otherwise, if the element holds focus, focus moves to the first focusable
element of the container (when the container ref is set and such an element
exists); then visibility becomes hidden, a truthy IS_FOCUSABLE value is
saved into WAS_FOCUSABLE, and IS_FOCUSABLE is forced to the string false.
Returns the new element state and the new focused element. -/
def hideEl (env : PassEnv) (elId : Nat) (st : ItemState) (focused : Option Nat) :
    ItemState × Option Nat :=
  if st.hidden then (st, focused)
  else
    let focused2 :=
      if focused = some elId then
        if env.containerSet then
          match getFirstFocusable env with
          | some t => some t
          | none => focused
        else focused
      else focused
    let wasF := st.isFocusable
    ({ hidden := true
       isFocusable := some "false"
       wasFocusable := if truthy wasF then wasF else st.wasFocusable }, focused2)

/-- Translation of the show function: returns false (no change) on a visible
element; otherwise restores visibility, and either copies a truthy
WAS_FOCUSABLE back into IS_FOCUSABLE (removing WAS_FOCUSABLE) or removes
IS_FOCUSABLE.  The boolean is the function's return value. -/
def showEl (st : ItemState) : ItemState × Bool :=
  if st.hidden = false then (st, false)
  else
    if truthy st.wasFocusable then
      ({ hidden := false, isFocusable := st.wasFocusable, wasFocusable := none }, true)
    else
      ({ hidden := false, isFocusable := none, wasFocusable := st.wasFocusable }, true)

/-- Translation of isItemOverflowing: the item is out of the crop rectangle
when its right edge strictly exceeds the container's right edge or its left
edge strictly precedes the container's left edge.  The source function takes
no direction flag. -/
def isItemOverflowing (itemBoundingRect containerBoundingRect : Rect) : Bool :=
  decide (itemBoundingRect.right > containerBoundingRect.right) ||
    decide (itemBoundingRect.left < containerBoundingRect.left)

/-- Model of "parseFloat(getComputedStyle(el).marginX) || 0". -/
def resolveMargin (m : Option Int) : Int := m.getD 0

/-- Translation of wouldItemCollide: in RTL the item's left edge minus the
overflow item's width minus the item's left margin is compared against the
container's left edge; in LTR the item's right edge plus the overflow item's
width plus the item's right margin is compared against the container's right
edge. -/
def wouldItemCollide (env : PassEnv) (g : ItemGeom) : Bool :=
  if env.rtl then
    decide (g.rect.left - env.overflowItemRect.width - resolveMargin g.marginLeft <
      env.containerRect.left)
  else
    decide (g.rect.right + env.overflowItemRect.width + resolveMargin g.marginRight >
      env.containerRect.right)

/-- Corrective offsets for absolute positioning of the overflow item. -/
structure PositionOffset where
  vertical : Int
  horizontal : Int
deriving DecidableEq, Repr

/-- Translation of the absolutePositioningOffset computation inside
hideOverflowItems. -/
def absolutePositioningOffset (env : PassEnv) : PositionOffset :=
  { horizontal :=
      if env.rtl then env.offsetMeasureRect.right - env.containerRect.right
      else env.containerRect.left - env.offsetMeasureRect.left
    vertical := env.containerRect.top - env.offsetMeasureRect.top }

/-- Inline style of the overflow item: the left and right pixel values and
the position property, each absent until written. -/
structure OverflowItemStyle where
  left : Option Int
  right : Option Int
  position : Option String
deriving DecidableEq, Repr

/-- Translation of setOverflowPosition.  Returns the updated style and the
value written to the lastVisibleItemIndex ref (some (-1) exactly when there
is no last visible item; none when the ref is left untouched). -/
def setOverflowPosition (env : PassEnv) (lastVisible : Option (Nat × ItemGeom))
    (offset : PositionOffset) (style : OverflowItemStyle) :
    OverflowItemStyle × Option Int :=
  match lastVisible with
  | some (_, g) =>
    if env.rtl then
      ({ style with right := some (env.containerRect.right - g.rect.left +
          resolveMargin g.marginLeft + offset.horizontal) }, none)
    else
      ({ style with left := some (g.rect.right - env.containerRect.left +
          resolveMargin g.marginRight + offset.horizontal) }, none)
  | none =>
    if env.rtl then ({ style with right := some offset.horizontal }, some (-1))
    else ({ style with left := some offset.horizontal }, some (-1))

/-- Result of the forEachRight scan: the per-item states in scan order
(last DOM item first), the isOverflowing flag, the recorded last visible
item (index and geometry) and the focused element. -/
structure ScanResult where
  states : List ItemState
  isOverflowing : Bool
  lastVisible : Option (Nat × ItemGeom)
  focused : Option Nat
deriving DecidableEq, Repr

/-- Translation of the forEachRight body of hideOverflowItems.  The input
list carries the items in scan order (reversed DOM order) with their DOM
index and geometry.  Per item: a cropped item is hidden and scanning
continues with isOverflowing set; once overflowing and before a last visible
item is found, a colliding item is hidden and scanning continues; otherwise
the first such item is recorded as last visible and show is called — lodash
forEachRight stops when the callback (the return value of show) is false,
leaving the remaining earlier items untouched. -/
def scanItems (env : PassEnv) :
    List (Nat × ItemGeom × ItemState) → Bool → Option (Nat × ItemGeom) → Option Nat →
    ScanResult
  | [], ov, lv, foc => ⟨[], ov, lv, foc⟩
  | (i, g, st) :: rest, ov, lv, foc =>
    if isItemOverflowing g.rect env.containerRect then
      let h := hideEl env i st foc
      let r := scanItems env rest true lv h.2
      ⟨h.1 :: r.states, r.isOverflowing, r.lastVisible, r.focused⟩
    else if ov && lv.isNone && wouldItemCollide env g then
      let h := hideEl env i st foc
      let r := scanItems env rest ov lv h.2
      ⟨h.1 :: r.states, r.isOverflowing, r.lastVisible, r.focused⟩
    else
      let lv2 := if lv.isNone then some (i, g) else lv
      let sh := showEl st
      if sh.2 then
        let r := scanItems env rest ov lv2 foc
        ⟨sh.1 :: r.states, r.isOverflowing, r.lastVisible, r.focused⟩
      else
        ⟨sh.1 :: rest.map (fun e => e.2.2), ov, lv2, foc⟩

/-- DOM children in scan order: each element paired with its DOM index, last
child first.  The overflow item is rendered after all real items, so the
scan's initial skip of the overflow item leaves exactly the real items,
whose DOM indices 0..n-1 coincide with their logical indices. -/
def revIndexed {α : Type} (l : List α) : List (Nat × α) :=
  l.enum.reverse

/-- Presence of the three element refs checked at the start of a pass. -/
structure RefsPresent where
  overflowContainer : Bool
  overflowItem : Bool
  offsetMeasure : Bool
deriving DecidableEq, Repr

/-- Observable state of one toolbar instance across passes: the per-item
element states (DOM order), the overflow item's element state and inline
style, the lastVisibleItemIndex ref, the focused element, the container's
horizontal scroll position, and the record of onOverflow invocations. -/
structure PassState where
  itemStates : List ItemState
  overflowState : ItemState
  overflowStyle : OverflowItemStyle
  lastVisibleItemIndex : Int
  focused : Option Nat
  scrollX : Int
  onOverflowCalls : List Int
deriving DecidableEq, Repr

/-- Number.MAX_SAFE_INTEGER, the x argument of scrollTo in RTL. -/
def maxSafeInteger : Int := 9007199254740991

/-- Scan phase of a pass, as invoked by hideOverflowItems: all real items in
reversed DOM order, starting not overflowing, with no last visible item. -/
def passScan (env : PassEnv) (s : PassState) : ScanResult :=
  scanItems env (revIndexed (env.itemGeoms.zip s.itemStates)) false none s.focused

/-- Translation of hideOverflowItems.  If any of the three refs is unset the
pass returns immediately.  Otherwise: the container scroll is reset (0 in
LTR, MAX_SAFE_INTEGER in RTL), the positioning offset is computed, the items
are scanned from the last one back, and then either (overflow found or
overflow menu forced open) the overflow item is absolutely positioned next
to the last visible item and shown, or the lastVisibleItemIndex ref is set
to the full item count minus one and the overflow item is hidden.  Finally
onOverflow is invoked with lastVisibleItemIndex + 1. -/
def hideOverflowItems (env : PassEnv) (refs : RefsPresent) (s : PassState) : PassState :=
  if refs.overflowContainer && refs.overflowItem && refs.offsetMeasure then
    let scrolled : Int := if env.rtl then maxSafeInteger else 0
    let offset := absolutePositioningOffset env
    let r := passScan env s
    let sts := r.states.reverse
    if r.isOverflowing || env.overflowOpen then
      let style0 : OverflowItemStyle := { s.overflowStyle with position := some "absolute" }
      let sp := setOverflowPosition env r.lastVisible offset style0
      let idx : Int :=
        match sp.2 with
        | some v => v
        | none =>
          match r.lastVisible with
          | some (i, _) => (i : Int)
          | none => s.lastVisibleItemIndex
      let ov := showEl s.overflowState
      { itemStates := sts
        overflowState := ov.1
        overflowStyle := sp.1
        lastVisibleItemIndex := idx
        focused := r.focused
        scrollX := scrolled
        onOverflowCalls := s.onOverflowCalls ++ [idx + 1] }
    else
      let idx : Int := (env.itemGeoms.length : Int) - 1
      let h := hideEl env env.itemGeoms.length s.overflowState r.focused
      { itemStates := sts
        overflowState := h.1
        overflowStyle := s.overflowStyle
        lastVisibleItemIndex := idx
        focused := h.2
        scrollX := scrolled
        onOverflowCalls := s.onOverflowCalls ++ [idx + 1] }
  else s

/-! Popup behavior descriptor (the unnamed source file). -/

/-- Props of the trigger slot element that the behavior inspects. -/
structure TriggerProps where
  asTag : Option String
  href : Option String
  tabIndex : Option String
deriving DecidableEq, Repr

/-- Trigger slot: its props and its element type. -/
structure TriggerSlot where
  props : TriggerProps
  type : Option String
deriving DecidableEq, Repr

/-- Props consumed by popupBehavior.  The on prop is kept in its array form
(the code wraps a single value into a one-element array first);  trapFocus
is the truthiness of the boolean-or-object prop. -/
structure PopupBehaviorProps where
  trapFocus : Bool
  onEvents : List String
  disabled : Option Bool
  trigger : Option TriggerSlot
  tabbableTrigger : Bool
  isOpenedByRightClick : Bool
deriving DecidableEq, Repr

/-- Translation of isFocusable: button and input types, anchors with an
href, and elements rendered as button are natively focusable. -/
def isFocusable (asTag href ty : Option String) : Bool :=
  decide (ty = some "button") || decide (ty = some "input") ||
    (decide (ty = some "a") && href.isSome) || decide (asTag = some "button")

/-- Translation of getAriaAttributeFromProps specialised to the tabIndex
attribute with numeric default: a truthy tabIndex provided on the trigger's
props wins (inl), a natively focusable trigger gets nothing, and otherwise
the default value (inr) applies. -/
def getTabIndexFromProps (props : PopupBehaviorProps) (defaultValue : Nat) :
    Option (String ⊕ Nat) :=
  match props.trigger with
  | none => none
  | some trig =>
    if truthy trig.props.tabIndex then trig.props.tabIndex.map Sum.inl
    else if isFocusable trig.props.asTag trig.props.href trig.type then none
    else some (Sum.inr defaultValue)

/-- Attributes produced for the trigger slot. -/
structure TriggerAttributes where
  tabIndex : Option (String ⊕ Nat)
  ariaHasPopup : Option String
  dataAaClass : Option String
  ariaDisabled : Option Bool
deriving DecidableEq, Repr

/-- Attributes produced for the popup slot. -/
structure PopupSlotAttributes where
  role : String
  ariaModal : Option Bool
deriving DecidableEq, Repr

/-- Full return value of popupBehavior: the two attribute records plus the
key-action tables (key codes; a table of none models the false-or-undefined
keyCombinations the lodash chains produce). -/
structure PopupBehaviorResult where
  triggerAttrs : TriggerAttributes
  popupAttrs : PopupSlotAttributes
  popupCloseAndFocusTrigger : List Nat
  popupPreventScroll : Option (List Nat)
  triggerClose : List Nat
  triggerToggle : Option (List Nat)
  triggerOpen : Option (List Nat)
deriving DecidableEq, Repr

/-- Translation of popupBehavior.  Key codes: Escape 27, Enter 13, Spacebar
32, ArrowDown 40, ArrowUp 38, PageDown 34, PageUp 33, Home 36, End 35.  The
production flag models process.env.NODE_ENV === production, which gates the
data-aa-class trigger attribute. -/
def popupBehavior (production : Bool) (props : PopupBehaviorProps) : PopupBehaviorResult :=
  let tabbable := props.tabbableTrigger
  { triggerAttrs :=
      { tabIndex := if tabbable then getTabIndexFromProps props 0 else none
        ariaHasPopup := if tabbable then some "true" else none
        dataAaClass := if tabbable && !production then some "PopupButton" else none
        ariaDisabled := props.disabled }
    popupAttrs :=
      { role := if props.trapFocus then "dialog" else "complementary"
        ariaModal := if props.trapFocus then some true else none }
    popupCloseAndFocusTrigger := [27]
    popupPreventScroll :=
      if props.isOpenedByRightClick && props.onEvents.contains "context" then
        some [40, 38, 34, 33, 36, 35]
      else none
    triggerClose := [27]
    triggerToggle := if props.onEvents.contains "click" then some [13, 32] else none
    triggerOpen :=
      if props.onEvents.contains "hover" && !props.onEvents.contains "context" then some [13, 32]
      else none }

/-- Replacement of the states carried in a scan input list, keeping the
indices and geometry; used to express rerunning the scan on the states a
previous scan produced. -/
def withStates : List (Nat × ItemGeom × ItemState) → List ItemState →
    List (Nat × ItemGeom × ItemState)
  | [], _ => []
  | _ :: _, [] => []
  | (i, g, _) :: l, st :: sts => (i, g, st) :: withStates l sts

/-! Concrete scenario constants used by the closed theorems below. -/

/-- All three element refs attached. -/
def allRefsPresent : RefsPresent := ⟨true, true, true⟩

/-- Visible element with no focusability attributes. -/
def visibleItem : ItemState := ⟨false, none, none⟩

/-- Hidden element with no focusability attributes. -/
def hiddenItem : ItemState := ⟨true, none, none⟩

/-- LTR container spanning 0..300 with zero positioning offset, items at
0..100, 100..220, 220..340 and an overflow indicator of width 30. -/
def envThreeItems : PassEnv :=
  { rtl := false
    containerRect := ⟨0, 300, 0, 300⟩
    overflowItemRect := ⟨0, 30, 0, 30⟩
    offsetMeasureRect := ⟨0, 0, 0, 0⟩
    itemGeoms := [⟨⟨0, 100, 0, 100⟩, none, none⟩, ⟨⟨100, 220, 0, 120⟩, none, none⟩,
      ⟨⟨220, 340, 0, 120⟩, none, none⟩]
    overflowOpen := false
    containerSet := true
    firstFocusable := none }

/-- Start state for the three-item scenario: everything visible, no calls. -/
def startThreeItems : PassState :=
  { itemStates := [visibleItem, visibleItem, visibleItem]
    overflowState := visibleItem
    overflowStyle := ⟨none, none, none⟩
    lastVisibleItemIndex := 0
    focused := none
    scrollX := 0
    onOverflowCalls := [] }

/-- Geometry with the first item protruding left of the container (left
edge -10 against container left 0) and the second item fitting. -/
def envLeftCrop : PassEnv :=
  { rtl := false
    containerRect := ⟨0, 300, 0, 300⟩
    overflowItemRect := ⟨0, 30, 0, 30⟩
    offsetMeasureRect := ⟨0, 0, 0, 0⟩
    itemGeoms := [⟨⟨-10, 50, 0, 60⟩, none, none⟩, ⟨⟨100, 200, 0, 100⟩, none, none⟩]
    overflowOpen := false
    containerSet := true
    firstFocusable := none }

/-- Start state for envLeftCrop: first item visible, second item hidden
(state a previous pass with different geometry can leave behind). -/
def startLeftCrop : PassState :=
  { itemStates := [visibleItem, hiddenItem]
    overflowState := visibleItem
    overflowStyle := ⟨none, none, none⟩
    lastVisibleItemIndex := 0
    focused := none
    scrollX := 0
    onOverflowCalls := [] }

/-- Geometry with the first item protruding left of the container, the
second fitting, and the third cropped on the right. -/
def envLeftCropThree : PassEnv :=
  { rtl := false
    containerRect := ⟨0, 300, 0, 300⟩
    overflowItemRect := ⟨0, 30, 0, 30⟩
    offsetMeasureRect := ⟨0, 0, 0, 0⟩
    itemGeoms := [⟨⟨-50, 10, 0, 60⟩, none, none⟩, ⟨⟨100, 220, 0, 120⟩, none, none⟩,
      ⟨⟨220, 340, 0, 120⟩, none, none⟩]
    overflowOpen := false
    containerSet := true
    firstFocusable := none }

/-- Start state for envLeftCropThree: middle item hidden, the others
visible. -/
def startLeftCropThree : PassState :=
  { itemStates := [visibleItem, hiddenItem, visibleItem]
    overflowState := visibleItem
    overflowStyle := ⟨none, none, none⟩
    lastVisibleItemIndex := 0
    focused := none
    scrollX := 0
    onOverflowCalls := [] }

/-- Environment whose container ref is set but which contains no focusable
element (getFirstFocusable yields nothing). -/
def envNoFocusTarget : PassEnv :=
  { rtl := false
    containerRect := ⟨0, 0, 0, 0⟩
    overflowItemRect := ⟨0, 0, 0, 0⟩
    offsetMeasureRect := ⟨0, 0, 0, 0⟩
    itemGeoms := []
    overflowOpen := false
    containerSet := true
    firstFocusable := none }

/-- Environment with a focusable element of id 5 inside the container. -/
def envFocusTarget : PassEnv :=
  { envNoFocusTarget with firstFocusable := some 5 }

/-- Two-item geometry in which everything fits (no overflow). -/
def envAllFit : PassEnv :=
  { envThreeItems with
    itemGeoms := [⟨⟨0, 100, 0, 100⟩, none, none⟩, ⟨⟨100, 220, 0, 120⟩, none, none⟩] }

/-- Start state matching envAllFit. -/
def startAllFit : PassState :=
  { startThreeItems with itemStates := [visibleItem, visibleItem] }

/-- Popup behavior props requesting focus trapping on a disabled trigger. -/
def propsTrapDisabled : PopupBehaviorProps :=
  { trapFocus := true
    onEvents := ["click"]
    disabled := some true
    trigger := none
    tabbableTrigger := false
    isOpenedByRightClick := false }

/-- Popup behavior props with no focus trapping. -/
def propsNoTrap : PopupBehaviorProps :=
  { propsTrapDisabled with trapFocus := false, disabled := none }

/-! Helper lemmas about the visibility toggler. -/

theorem hideEl_result_hidden (env : PassEnv) (elId : Nat) (st : ItemState)
    (foc : Option Nat) : (hideEl env elId st foc).1.hidden = true := by
  unfold hideEl
  split_ifs with h
  · exact h
  all_goals rfl

theorem hideEl_noop_of_hidden (env : PassEnv) (elId : Nat) (st : ItemState)
    (foc : Option Nat) (h : st.hidden = true) : hideEl env elId st foc = (st, foc) := by
  simp [hideEl, h]

theorem showEl_result_visible (st : ItemState) : (showEl st).1.hidden = false := by
  unfold showEl
  split_ifs with h1 h2
  · exact h1
  · rfl
  · rfl

theorem showEl_noop_of_visible (st : ItemState) (h : st.hidden = false) :
    showEl st = (st, false) := by
  simp [showEl, h]

/-- C1: for the concrete LTR scenario with zero margins and zero positioning
offset — container spanning 0..300, three items with rectangles 0..100,
100..220, 220..340, overflow indicator of width 30 — a layout pass hides the
third item, keeps the first two visible, records last-visible index 1, and
positions the overflow indicator at inline style left = 220px. -/
theorem c1_concrete_scenario :
    (hideOverflowItems envThreeItems allRefsPresent startThreeItems).itemStates.map
        ItemState.hidden = [false, false, true] ∧
    isItemOverflowing (envThreeItems.itemGeoms.getD 2 ⟨⟨0, 0, 0, 0⟩, none, none⟩).rect
        envThreeItems.containerRect = true ∧
    (hideOverflowItems envThreeItems allRefsPresent startThreeItems).lastVisibleItemIndex
        = 1 ∧
    (hideOverflowItems envThreeItems allRefsPresent startThreeItems).overflowStyle.left
        = some 220 := by
  decide

/-- C3: an item counts as cropped exactly when its right edge strictly
exceeds the container's right edge or its left edge strictly precedes the
container's left edge; edge-to-edge equality counts as fitting.  The test
takes no writing-direction flag at all (the definition of isItemOverflowing
has no rtl parameter), so it is the same in LTR and RTL. -/
theorem c3_isItemOverflowing_iff (item container : Rect) :
    (isItemOverflowing item container = true ↔
      container.right < item.right ∨ item.left < container.left) ∧
    (isItemOverflowing item container = false ↔
      item.right ≤ container.right ∧ container.left ≤ item.left) := by
  constructor
  · simp [isItemOverflowing]
  · simp [isItemOverflowing, not_or, not_lt]

/-- C7: if any of the three element refs is unset when a layout pass starts,
the pass returns the state unchanged — no item visibility change, no scroll
reset, no indicator repositioning, no onOverflow invocation (the pass is a
total function, so no exception either). -/
theorem c7_missing_refs_noop (env : PassEnv) (refs : RefsPresent) (s : PassState)
    (h : refs.overflowContainer = false ∨ refs.overflowItem = false ∨
      refs.offsetMeasure = false) :
    hideOverflowItems env refs s = s := by
  unfold hideOverflowItems
  rcases h with h | h | h <;> simp [h]

/-- Witness for c7_missing_refs_noop at a concrete input. -/
theorem c7_missing_refs_noop_witness :
    hideOverflowItems envThreeItems ⟨false, true, true⟩ startThreeItems
      = startThreeItems :=
  c7_missing_refs_noop envThreeItems ⟨false, true, true⟩ startThreeItems (Or.inl rfl)

/-- C8 counterexample: with the focusability marker present but holding the
empty string (a falsy attribute value), hide does not save it and show then
removes the marker entirely, so hide followed by show does not restore the
original marker. -/
theorem c8_counterexample :
    (⟨false, some "", none⟩ : ItemState).isFocusable = some "" ∧
    (⟨false, some "", none⟩ : ItemState).hidden = false ∧
    (showEl (hideEl envNoFocusTarget 0 ⟨false, some "", none⟩ none).1).1.isFocusable
      = none := by
  decide

/-- C8 amended: for a visible item with no shadow marker whose focusability
marker is either absent or truthy (a non-empty string), hide followed by
show restores the original marker exactly, leaves the shadow marker absent
and the item visible.  A present-but-empty marker is the one exception: it
ends up removed (see the counterexample). -/
theorem c8_hide_show_roundtrip (env : PassEnv) (elId : Nat) (st : ItemState)
    (foc : Option Nat) (hvis : st.hidden = false) (hshadow : st.wasFocusable = none)
    (hval : st.isFocusable = none ∨ truthy st.isFocusable = true) :
    (showEl (hideEl env elId st foc).1).1.isFocusable = st.isFocusable ∧
    (showEl (hideEl env elId st foc).1).1.wasFocusable = none ∧
    (showEl (hideEl env elId st foc).1).1.hidden = false := by
  rcases hval with hval | hval
  · simp [hideEl, showEl, hvis, hshadow, hval, truthy]
  · simp [hideEl, showEl, hvis, hshadow, hval]

/-- Witness for c8_hide_show_roundtrip at a concrete input. -/
theorem c8_hide_show_roundtrip_witness :
    (showEl (hideEl envNoFocusTarget 0 ⟨false, some "true", none⟩ none).1).1.isFocusable
        = some "true" ∧
    (showEl (hideEl envNoFocusTarget 0 ⟨false, some "true", none⟩ none).1).1.wasFocusable
        = none ∧
    (showEl (hideEl envNoFocusTarget 0 ⟨false, some "true", none⟩ none).1).1.hidden
        = false :=
  c8_hide_show_roundtrip envNoFocusTarget 0 ⟨false, some "true", none⟩ none rfl rfl
    (Or.inr (by decide))

/-- C9 counterexample: hiding a focused item when the container holds no
focusable element leaves focus exactly where it was — on the element that
has just been hidden — so focus can be left on a hidden element. -/
theorem c9_counterexample :
    (hideEl envNoFocusTarget 0 ⟨false, some "true", none⟩ (some 0)).2 = some 0 ∧
    (hideEl envNoFocusTarget 0 ⟨false, some "true", none⟩ (some 0)).1.hidden = true := by
  decide

/-- C9 amended: when hide is applied to a visible item holding focus, the
container ref is set and getFirstFocusable yields an element, focus moves to
that element before the item is hidden; when that element is not the item
being hidden, focus therefore does not rest on the item just hidden.  When
no focusable element exists the fallback is silent and focus can remain on
the hidden item (see the counterexample). -/
theorem c9_focus_relocation (env : PassEnv) (elId : Nat) (st : ItemState) (t : Nat)
    (hvis : st.hidden = false) (hcont : env.containerSet = true)
    (hff : env.firstFocusable = some t) (hne : t ≠ elId) :
    (hideEl env elId st (some elId)).2 = some t ∧
    (hideEl env elId st (some elId)).2 ≠ some elId ∧
    (hideEl env elId st (some elId)).1.hidden = true := by
  refine ⟨?_, ?_, hideEl_result_hidden env elId st (some elId)⟩ <;>
    simp [hideEl, getFirstFocusable, hvis, hcont, hff, hne]

/-- Witness for c9_focus_relocation at a concrete input. -/
theorem c9_focus_relocation_witness :
    (hideEl envFocusTarget 0 visibleItem (some 0)).2 = some 5 ∧
    (hideEl envFocusTarget 0 visibleItem (some 0)).2 ≠ some 0 ∧
    (hideEl envFocusTarget 0 visibleItem (some 0)).1.hidden = true :=
  c9_focus_relocation envFocusTarget 0 visibleItem 5 rfl rfl rfl (by decide)

/-- C10: the popup slot gets role dialog and aria-modal true exactly when
focus trapping is requested, role complementary with no aria-modal flag
otherwise; a disabled trigger carries aria-disabled true. -/
theorem c10_popupBehavior_attributes (production : Bool) (props : PopupBehaviorProps) :
    (props.trapFocus = true →
      (popupBehavior production props).popupAttrs.role = "dialog" ∧
      (popupBehavior production props).popupAttrs.ariaModal = some true) ∧
    (props.trapFocus = false →
      (popupBehavior production props).popupAttrs.role = "complementary" ∧
      (popupBehavior production props).popupAttrs.ariaModal = none) ∧
    (props.disabled = some true →
      (popupBehavior production props).triggerAttrs.ariaDisabled = some true) := by
  refine ⟨fun h => ?_, fun h => ?_, fun h => ?_⟩ <;> simp [popupBehavior, h]

/-- Witness for c10_popupBehavior_attributes at concrete inputs. -/
theorem c10_popupBehavior_attributes_witness :
    (popupBehavior true propsTrapDisabled).popupAttrs.role = "dialog" ∧
    (popupBehavior true propsTrapDisabled).popupAttrs.ariaModal = some true ∧
    (popupBehavior true propsTrapDisabled).triggerAttrs.ariaDisabled = some true ∧
    (popupBehavior true propsNoTrap).popupAttrs.role = "complementary" ∧
    (popupBehavior true propsNoTrap).popupAttrs.ariaModal = none :=
  ⟨((c10_popupBehavior_attributes true propsTrapDisabled).1 rfl).1,
   ((c10_popupBehavior_attributes true propsTrapDisabled).1 rfl).2,
   (c10_popupBehavior_attributes true propsTrapDisabled).2.2 rfl,
   ((c10_popupBehavior_attributes true propsNoTrap).2.1 rfl).1,
   ((c10_popupBehavior_attributes true propsNoTrap).2.1 rfl).2⟩

/-! Helper lemmas about the scan. -/

theorem scanItems_states_length (env : PassEnv) (l : List (Nat × ItemGeom × ItemState)) :
    ∀ ov lv foc, (scanItems env l ov lv foc).states.length = l.length := by
  induction l with
  | nil => intro ov lv foc; rfl
  | cons e rest ih =>
    intro ov lv foc
    obtain ⟨i, g, st⟩ := e
    simp only [scanItems]
    split_ifs <;> simp [ih]

theorem scanItems_lastVisible_some (env : PassEnv) (l : List (Nat × ItemGeom × ItemState)) :
    ∀ ov x foc, (scanItems env l ov (some x) foc).lastVisible = some x := by
  induction l with
  | nil => intro ov x foc; rfl
  | cons e rest ih =>
    intro ov x foc
    obtain ⟨i, g, st⟩ := e
    simp only [scanItems, Option.isNone_some, Bool.and_false, Bool.false_and,
      Bool.false_eq_true, if_false]
    split_ifs <;> simp [ih]

theorem scanItems_overflowing_of_start (env : PassEnv)
    (l : List (Nat × ItemGeom × ItemState)) :
    ∀ lv foc, (scanItems env l true lv foc).isOverflowing = true := by
  induction l with
  | nil => intro lv foc; rfl
  | cons e rest ih =>
    intro lv foc
    obtain ⟨i, g, st⟩ := e
    simp only [scanItems]
    split_ifs <;> simp [ih]

theorem scanItems_cropRun (env : PassEnv) (l1 l2 : List (Nat × ItemGeom × ItemState))
    (hall : ∀ e ∈ l1, isItemOverflowing e.2.1.rect env.containerRect = true) :
    ∀ ov lv foc,
      ((scanItems env (l1 ++ l2) ov lv foc).states.take l1.length).all
        ItemState.hidden = true := by
  induction l1 with
  | nil => intro ov lv foc; simp
  | cons e l1 ih =>
    intro ov lv foc
    obtain ⟨i, g, st⟩ := e
    have hc : isItemOverflowing g.rect env.containerRect = true :=
      hall _ (List.mem_cons_self _ _)
    simp only [List.cons_append, scanItems, hc, if_true]
    simp only [List.length_cons, List.take_succ_cons, List.all_cons, Bool.and_eq_true]
    exact ⟨hideEl_result_hidden env i st foc,
      ih (fun e he => hall _ (List.mem_cons_of_mem _ he)) true lv _⟩

/-- Projection lemma: with all refs present, a pass replaces the item states
by the scan's output states (read back in DOM order), in both branches. -/
theorem hideOverflowItems_itemStates (env : PassEnv) (refs : RefsPresent) (s : PassState)
    (h1 : refs.overflowContainer = true) (h2 : refs.overflowItem = true)
    (h3 : refs.offsetMeasure = true) :
    (hideOverflowItems env refs s).itemStates = (passScan env s).states.reverse := by
  unfold hideOverflowItems
  rw [h1, h2, h3]
  simp only [Bool.and_self, if_true]
  split_ifs <;> rfl

/-- C2 counterexample: container 0..300, first item protruding left of the
container (cropped), second item fitting but initially hidden.  The pass
hides the first item because it is cropped, yet the second item — after it —
ends the pass visible. -/
theorem c2_counterexample :
    startLeftCrop.itemStates.map ItemState.hidden = [false, true] ∧
    isItemOverflowing ((envLeftCrop.itemGeoms.getD 0 ⟨⟨0, 0, 0, 0⟩, none, none⟩)).rect
        envLeftCrop.containerRect = true ∧
    (hideOverflowItems envLeftCrop allRefsPresent startLeftCrop).itemStates.map
        ItemState.hidden = [true, false] := by
  decide

/-- C2 amended: when the item rectangles are in layout order — no item
protrudes left of the container and right edges are nondecreasing along the
item list — an item cropped by the container bounds is hidden by the pass
together with every item after it. -/
theorem c2_cropping_monotone (env : PassEnv) (refs : RefsPresent) (s : PassState)
    (h1 : refs.overflowContainer = true) (h2 : refs.overflowItem = true)
    (h3 : refs.offsetMeasure = true)
    (hlen : s.itemStates.length = env.itemGeoms.length)
    (hleft : ∀ g ∈ env.itemGeoms, env.containerRect.left ≤ g.rect.left)
    (hmono : env.itemGeoms.Pairwise (fun a b => a.rect.right ≤ b.rect.right))
    (i : Nat) (hi : i < env.itemGeoms.length)
    (hcrop : isItemOverflowing ((env.itemGeoms.getD i ⟨⟨0, 0, 0, 0⟩, none, none⟩)).rect
      env.containerRect = true) :
    (((hideOverflowItems env refs s).itemStates.drop i).all ItemState.hidden) = true := by
  classical
  set n := env.itemGeoms.length with hn
  -- every item at or after i is cropped
  have hgetD : env.itemGeoms.getD i ⟨⟨0, 0, 0, 0⟩, none, none⟩ = env.itemGeoms[i] := by
    simp [List.getD_eq_getElem?_getD, List.getElem?_eq_getElem hi]
  rw [hgetD] at hcrop
  have hright : env.containerRect.right < (env.itemGeoms[i]).rect.right := by
    have := (c3_isItemOverflowing_iff (env.itemGeoms[i]).rect env.containerRect).1.1 hcrop
    rcases this with h | h
    · exact h
    · exact absurd (hleft _ (List.getElem_mem hi)) (by omega)
  have hcropall : ∀ j (hj : j < n), i ≤ j →
      isItemOverflowing (env.itemGeoms[j]).rect env.containerRect = true := by
    intro j hj hij
    rcases Nat.eq_or_lt_of_le hij with rfl | hlt
    · exact hcrop
    · have hr : (env.itemGeoms[i]).rect.right ≤ (env.itemGeoms[j]).rect.right :=
        (List.pairwise_iff_getElem.1 hmono) i j hi hj hlt
      exact (c3_isItemOverflowing_iff _ _).1.2 (Or.inl (by omega))
  rw [hideOverflowItems_itemStates env refs s h1 h2 h3]
  -- decompose the reversed scan input into the cropped run and the rest
  set m := env.itemGeoms.zip s.itemStates with hm
  have hmlen : m.length = n := by
    simp [hm, hlen]
  set lrev := revIndexed m with hlrev
  have hlrevlen : lrev.length = n := by
    simp [hlrev, revIndexed, hmlen]
  have hsplit : lrev = lrev.take (n - i) ++ lrev.drop (n - i) :=
    (List.take_append_drop _ _).symm
  have htklen : (lrev.take (n - i)).length = n - i := by
    rw [List.length_take, hlrevlen]
    omega
  have hall : ∀ e ∈ lrev.take (n - i),
      isItemOverflowing e.2.1.rect env.containerRect = true := by
    rintro ⟨j, g, st⟩ he
    -- the geometry carried at index j is the j-th item geometry
    have he1 : (j, g, st) ∈ lrev := List.mem_of_mem_take he
    have he2 : (j, (g, st)) ∈ m.enum := by
      rw [hlrev] at he1
      exact List.mem_reverse.1 he1
    have he3 : m[j]? = some (g, st) := List.mk_mem_enum_iff_getElem?.1 he2
    have he4 : env.itemGeoms[j]? = some g ∧ s.itemStates[j]? = some st := by
      rw [hm] at he3
      exact (List.getElem?_zip_eq_some.1 he3)
    have hjn : j < n := by
      obtain ⟨h, _⟩ := List.getElem?_eq_some_iff.1 he4.1
      omega
    have hjn2 : j < env.itemGeoms.length := by omega
    have hg : env.itemGeoms[j] = g := by
      have := List.getElem?_eq_some_iff.1 he4.1
      obtain ⟨h, hh⟩ := this
      exact hh
    -- the take region only holds scan positions whose DOM index is at least i
    obtain ⟨k, hk, hke⟩ := List.getElem_of_mem he
    have hkni : k < n - i := by omega
    have hkl : k < lrev.length := by omega
    have h1e : (lrev.take (n - i))[k] = lrev[k] :=
      List.getElem_take ..
    have hfst : (lrev[k]).1 = n - 1 - k := by
      simp only [hlrev, revIndexed]
      rw [List.getElem_reverse]
      rw [List.getElem_enum]
      simp [List.enum_length, hmlen]
    have hjk : j = n - 1 - k := by
      rw [← hfst, ← h1e, hke]
    have hij : i ≤ j := by omega
    rw [show (⟨j, g, st⟩ : Nat × ItemGeom × ItemState).2.1.rect = g.rect from rfl, ← hg]
    exact hcropall j hjn hij
  have hcrun := scanItems_cropRun env (lrev.take (n - i)) (lrev.drop (n - i)) hall
    false none s.focused
  rw [← hsplit, htklen] at hcrun
  -- transport from take of the scan states to drop of their reversal
  have hslen : (scanItems env lrev false none s.focused).states.length = n := by
    rw [scanItems_states_length, hlrevlen]
  set sts := (scanItems env lrev false none s.focused).states with hsts
  have hrev : (sts.take (n - i)).reverse = sts.reverse.drop i := by
    rw [List.reverse_take]
    congr 1
    rw [hslen]
    omega
  have : passScan env s = scanItems env lrev false none s.focused := rfl
  rw [this, ← hsts, ← hrev, List.all_reverse]
  exact hcrun

/-- Witness for c2_cropping_monotone at the concrete three-item scenario
(item at index 2 is cropped, so the dropped tail is all hidden). -/
theorem c2_cropping_monotone_witness :
    (((hideOverflowItems envThreeItems allRefsPresent startThreeItems).itemStates.drop
      2).all ItemState.hidden) = true :=
  c2_cropping_monotone envThreeItems allRefsPresent startThreeItems rfl rfl rfl rfl
    (by decide) (by decide) 2 (by decide) (by decide)

/-- C4 counterexample: container 0..300, items at -50..10 (protrudes left),
100..220 (fits, initially hidden) and 220..340 (cropped right).  The scan
records last-visible index 1, then still cropping-checks the earlier item 0
and hides it — so an item earlier than the recorded last visible item is not
shown unconditionally after the last visible item is found. -/
theorem c4_counterexample :
    (hideOverflowItems envLeftCropThree allRefsPresent startLeftCropThree).lastVisibleItemIndex
        = 1 ∧
    startLeftCropThree.itemStates.map ItemState.hidden = [false, true, false] ∧
    (hideOverflowItems envLeftCropThree allRefsPresent startLeftCropThree).itemStates.map
        ItemState.hidden = [true, false, true] := by
  decide

/-- C6: with all refs present a pass always appends exactly one onOverflow
invocation carrying the final last-visible index plus one (the visible item
count), even when nothing overflowed; and when the scan found no overflow
and the overflow menu is not forced open, the last-visible index is set to
the full item count minus one and the overflow indicator is hidden. -/
theorem c6_onOverflow_always (env : PassEnv) (refs : RefsPresent) (s : PassState)
    (h1 : refs.overflowContainer = true) (h2 : refs.overflowItem = true)
    (h3 : refs.offsetMeasure = true) :
    (hideOverflowItems env refs s).onOverflowCalls
        = s.onOverflowCalls ++ [(hideOverflowItems env refs s).lastVisibleItemIndex + 1] ∧
    ((passScan env s).isOverflowing = false → env.overflowOpen = false →
      (hideOverflowItems env refs s).lastVisibleItemIndex
          = (env.itemGeoms.length : Int) - 1 ∧
      (hideOverflowItems env refs s).overflowState.hidden = true) := by
  constructor
  · simp only [hideOverflowItems, h1, h2, h3, Bool.and_self, Bool.true_and]
    split_ifs <;> rfl
  · intro hso hop2
    simp only [hideOverflowItems, h1, h2, h3, hso, hop2, Bool.and_self, Bool.true_and,
      Bool.or_self, Bool.false_eq_true, if_false]
    exact ⟨rfl, hideEl_result_hidden ..⟩

/-- Witness for c6_onOverflow_always at the all-fitting two-item scenario. -/
theorem c6_onOverflow_always_witness :
    ((hideOverflowItems envAllFit allRefsPresent startAllFit).onOverflowCalls
        = startAllFit.onOverflowCalls
          ++ [(hideOverflowItems envAllFit allRefsPresent startAllFit).lastVisibleItemIndex
            + 1]) ∧
    (hideOverflowItems envAllFit allRefsPresent startAllFit).lastVisibleItemIndex
        = (envAllFit.itemGeoms.length : Int) - 1 ∧
    (hideOverflowItems envAllFit allRefsPresent startAllFit).overflowState.hidden
        = true :=
  ⟨(c6_onOverflow_always envAllFit allRefsPresent startAllFit rfl rfl rfl).1,
   ((c6_onOverflow_always envAllFit allRefsPresent startAllFit rfl rfl rfl).2
     (by decide) rfl).1,
   ((c6_onOverflow_always envAllFit allRefsPresent startAllFit rfl rfl rfl).2
     (by decide) rfl).2⟩

/-- Helper for the collision-gating property: once a last visible item is
recorded, the remainder of the scan never consults the overflow indicator
rectangle (the only input of the collision test not used elsewhere), so the
scan result is invariant under replacing that rectangle. -/
theorem scanItems_overflowRect_stable (env : PassEnv) (w : Rect)
    (l : List (Nat × ItemGeom × ItemState)) :
    ∀ ov x foc, scanItems { env with overflowItemRect := w } l ov (some x) foc
      = scanItems env l ov (some x) foc := by
  induction l with
  | nil => intro ov x foc; rfl
  | cons e rest ih =>
    intro ov x foc
    obtain ⟨i, g, st⟩ := e
    simp only [scanItems, Option.isNone_some, Bool.and_false, Bool.false_and,
      Bool.false_eq_true, if_false]
    have hhide : hideEl { env with overflowItemRect := w } = hideEl env := rfl
    rw [hhide]
    split_ifs with hc hs
    · rw [ih]
    · rw [ih]
    · rfl

/-- C4 amended: the collision-with-indicator test is consulted only while
some item has been found cropped and the last visible item is undetermined.
Formally, both the portion of the scan after a last visible item is recorded
and a scan in which no item is cropped are independent of the overflow
indicator rectangle (the collision test's distinguishing input).  Items
scanned after the last visible item is recorded are not collision-checked,
but they are still cropping-checked — a cropped earlier item is hidden (see
the counterexample) — and the scan stops at the first already-visible item,
leaving items before it untouched. -/
theorem c4_collision_gating (env : PassEnv) (w : Rect)
    (l : List (Nat × ItemGeom × ItemState)) (ov : Bool) (x : Nat × ItemGeom)
    (foc : Option Nat) :
    scanItems { env with overflowItemRect := w } l ov (some x) foc
        = scanItems env l ov (some x) foc ∧
    ((∀ e ∈ l, isItemOverflowing e.2.1.rect env.containerRect = false) →
      scanItems { env with overflowItemRect := w } l false none foc
        = scanItems env l false none foc) := by
  refine ⟨scanItems_overflowRect_stable env w l ov x foc, fun hall => ?_⟩
  cases l with
  | nil => rfl
  | cons e rest =>
    obtain ⟨i, g, st⟩ := e
    have hc := hall _ (List.mem_cons_self _ _)
    simp only [scanItems, hc, Bool.false_eq_true, if_false, Bool.false_and,
      Option.isNone_none, if_true]
    split_ifs with hs
    · rw [scanItems_overflowRect_stable]
    · rfl

/-- Witness for c4_collision_gating at concrete inputs. -/
theorem c4_collision_gating_witness :
    (scanItems { envThreeItems with overflowItemRect := ⟨0, 0, 0, 99⟩ }
        [(0, ⟨⟨0, 100, 0, 100⟩, none, none⟩, visibleItem)] true
        (some (1, ⟨⟨100, 220, 0, 120⟩, none, none⟩)) none
      = scanItems envThreeItems [(0, ⟨⟨0, 100, 0, 100⟩, none, none⟩, visibleItem)] true
        (some (1, ⟨⟨100, 220, 0, 120⟩, none, none⟩)) none) ∧
    (scanItems { envThreeItems with overflowItemRect := ⟨0, 0, 0, 99⟩ }
        [(0, ⟨⟨0, 100, 0, 100⟩, none, none⟩, visibleItem)] false none none
      = scanItems envThreeItems [(0, ⟨⟨0, 100, 0, 100⟩, none, none⟩, visibleItem)] false
        none none) :=
  ⟨(c4_collision_gating envThreeItems ⟨0, 0, 0, 99⟩
      [(0, ⟨⟨0, 100, 0, 100⟩, none, none⟩, visibleItem)] true
      (1, ⟨⟨100, 220, 0, 120⟩, none, none⟩) none).1,
   (c4_collision_gating envThreeItems ⟨0, 0, 0, 99⟩
      [(0, ⟨⟨0, 100, 0, 100⟩, none, none⟩, visibleItem)] true
      (1, ⟨⟨100, 220, 0, 120⟩, none, none⟩) none).2 (by decide)⟩

theorem showEl_snd_of_hidden (st : ItemState) (h : st.hidden = true) :
    (showEl st).2 = true := by
  simp only [showEl, h, Bool.true_eq_false, if_false]
  split_ifs <;> rfl

theorem withStates_self (l : List (Nat × ItemGeom × ItemState)) :
    withStates l (l.map (fun e => e.2.2)) = l := by
  induction l with
  | nil => rfl
  | cons e rest ih =>
    obtain ⟨i, g, st⟩ := e
    simp only [List.map_cons, withStates, ih]

theorem withStates_map_states (l : List (Nat × ItemGeom × ItemState)) :
    ∀ sts : List ItemState, sts.length = l.length →
      (withStates l sts).map (fun e => e.2.2) = sts := by
  induction l with
  | nil =>
    intro sts h
    cases sts with
    | nil => rfl
    | cons a b => simp at h
  | cons e rest ih =>
    intro sts h
    obtain ⟨i, g, st⟩ := e
    cases sts with
    | nil => simp at h
    | cons st2 sts2 =>
      simp only [withStates, List.map_cons]
      rw [ih sts2 (by simpa using h)]

/-! Branch equations of the scan on a cons cell with no last visible item. -/

theorem scanItems_cons_crop (env : PassEnv) (i : Nat) (g : ItemGeom) (st : ItemState)
    (rest : List (Nat × ItemGeom × ItemState)) (ov : Bool)
    (lv : Option (Nat × ItemGeom)) (foc : Option Nat)
    (hc : isItemOverflowing g.rect env.containerRect = true) :
    scanItems env ((i, g, st) :: rest) ov lv foc =
      ⟨(hideEl env i st foc).1 ::
        (scanItems env rest true lv (hideEl env i st foc).2).states,
       (scanItems env rest true lv (hideEl env i st foc).2).isOverflowing,
       (scanItems env rest true lv (hideEl env i st foc).2).lastVisible,
       (scanItems env rest true lv (hideEl env i st foc).2).focused⟩ := by
  simp only [scanItems, hc, if_true]

theorem scanItems_cons_collide (env : PassEnv) (i : Nat) (g : ItemGeom) (st : ItemState)
    (rest : List (Nat × ItemGeom × ItemState)) (ov : Bool) (foc : Option Nat)
    (hc : isItemOverflowing g.rect env.containerRect = false)
    (hcol : (ov && wouldItemCollide env g) = true) :
    scanItems env ((i, g, st) :: rest) ov none foc =
      ⟨(hideEl env i st foc).1 ::
        (scanItems env rest ov none (hideEl env i st foc).2).states,
       (scanItems env rest ov none (hideEl env i st foc).2).isOverflowing,
       (scanItems env rest ov none (hideEl env i st foc).2).lastVisible,
       (scanItems env rest ov none (hideEl env i st foc).2).focused⟩ := by
  simp only [scanItems, hc, Bool.false_eq_true, if_false, Option.isNone_none,
    Bool.and_true, hcol, if_true]

theorem scanItems_cons_show_continue (env : PassEnv) (i : Nat) (g : ItemGeom)
    (st : ItemState) (rest : List (Nat × ItemGeom × ItemState)) (ov : Bool)
    (foc : Option Nat)
    (hc : isItemOverflowing g.rect env.containerRect = false)
    (hcol : (ov && wouldItemCollide env g) = false)
    (hsh : (showEl st).2 = true) :
    scanItems env ((i, g, st) :: rest) ov none foc =
      ⟨(showEl st).1 :: (scanItems env rest ov (some (i, g)) foc).states,
       (scanItems env rest ov (some (i, g)) foc).isOverflowing,
       (scanItems env rest ov (some (i, g)) foc).lastVisible,
       (scanItems env rest ov (some (i, g)) foc).focused⟩ := by
  simp only [scanItems, hc, Bool.false_eq_true, if_false, Option.isNone_none,
    Bool.and_true, hcol, if_true, hsh]

theorem scanItems_cons_show_stop (env : PassEnv) (i : Nat) (g : ItemGeom)
    (st : ItemState) (rest : List (Nat × ItemGeom × ItemState)) (ov : Bool)
    (foc : Option Nat)
    (hc : isItemOverflowing g.rect env.containerRect = false)
    (hcol : (ov && wouldItemCollide env g) = false)
    (hsh : (showEl st).2 = false) :
    scanItems env ((i, g, st) :: rest) ov none foc =
      ⟨(showEl st).1 :: rest.map (fun e => e.2.2), ov, some (i, g), foc⟩ := by
  simp only [scanItems, hc, Bool.false_eq_true, if_false, Option.isNone_none,
    Bool.and_true, hcol, if_true, hsh]

/-- Rerun lemma: scanning again over the states a first scan produced (same
geometry, same start flags) returns the same states and the same last
visible item, moves no focus, can only report overflow the first scan also
reported, and can miss the first scan's overflow flag only when the first
scan recorded the very first scanned item (the last DOM item) as last
visible while starting not overflowing. -/
theorem scanItems_rerun (env : PassEnv) (l : List (Nat × ItemGeom × ItemState)) :
    ∀ (ov : Bool) (foc foc2 : Option Nat),
      (scanItems env (withStates l (scanItems env l ov none foc).states) ov none
          foc2).states = (scanItems env l ov none foc).states ∧
      (scanItems env (withStates l (scanItems env l ov none foc).states) ov none
          foc2).lastVisible = (scanItems env l ov none foc).lastVisible ∧
      (scanItems env (withStates l (scanItems env l ov none foc).states) ov none
          foc2).focused = foc2 ∧
      ((scanItems env (withStates l (scanItems env l ov none foc).states) ov none
          foc2).isOverflowing = true →
        (scanItems env l ov none foc).isOverflowing = true) ∧
      ((scanItems env l ov none foc).isOverflowing = true →
        (scanItems env (withStates l (scanItems env l ov none foc).states) ov none
          foc2).isOverflowing = false →
        ov = false ∧ ∃ e rest, l = e :: rest ∧
          (scanItems env l ov none foc).lastVisible = some (e.1, e.2.1)) := by
  induction l with
  | nil =>
    intro ov foc foc2
    refine ⟨rfl, rfl, rfl, fun h => h, fun h1 h2 => ?_⟩
    simp only [scanItems, withStates] at h1 h2
    rw [h1] at h2
    cases h2
  | cons e rest ih =>
    intro ov foc foc2
    obtain ⟨i, g, st⟩ := e
    cases hc : isItemOverflowing g.rect env.containerRect with
    | true =>
      rw [scanItems_cons_crop env i g st rest ov none foc hc]
      dsimp only
      simp only [withStates]
      rw [scanItems_cons_crop env i g ((hideEl env i st foc).1)
        (withStates rest (scanItems env rest true none (hideEl env i st foc).2).states)
        ov none foc2 hc]
      rw [hideEl_noop_of_hidden env i ((hideEl env i st foc).1) foc2
        (hideEl_result_hidden env i st foc)]
      dsimp only
      obtain ⟨ih1, ih2, ih3, ih4, ih5⟩ := ih true (hideEl env i st foc).2 foc2
      refine ⟨by rw [ih1], by rw [ih2], ih3,
        fun _ => scanItems_overflowing_of_start env rest none (hideEl env i st foc).2,
        fun h1ov h2ov => ?_⟩
      rw [scanItems_overflowing_of_start env
        (withStates rest (scanItems env rest true none (hideEl env i st foc).2).states)
        none foc2] at h2ov
      cases h2ov
    | false =>
      cases hcol : (ov && wouldItemCollide env g) with
      | true =>
        rw [scanItems_cons_collide env i g st rest ov foc hc hcol]
        dsimp only
        simp only [withStates]
        rw [scanItems_cons_collide env i g ((hideEl env i st foc).1)
          (withStates rest (scanItems env rest ov none (hideEl env i st foc).2).states)
          ov foc2 hc hcol]
        rw [hideEl_noop_of_hidden env i ((hideEl env i st foc).1) foc2
          (hideEl_result_hidden env i st foc)]
        dsimp only
        obtain ⟨ih1, ih2, ih3, ih4, ih5⟩ := ih ov (hideEl env i st foc).2 foc2
        refine ⟨by rw [ih1], by rw [ih2], ih3, ih4, fun h1ov h2ov => ?_⟩
        obtain ⟨hovf, _⟩ := ih5 h1ov h2ov
        rw [hovf, Bool.false_and] at hcol
        cases hcol
      | false =>
        cases hsh : (showEl st).2 with
        | true =>
          rw [scanItems_cons_show_continue env i g st rest ov foc hc hcol hsh]
          dsimp only
          simp only [withStates]
          have hshow2 : showEl (showEl st).1 = ((showEl st).1, false) :=
            showEl_noop_of_visible _ (showEl_result_visible st)
          rw [scanItems_cons_show_stop env i g ((showEl st).1)
            (withStates rest (scanItems env rest ov (some (i, g)) foc).states)
            ov foc2 hc hcol (by rw [hshow2])]
          rw [hshow2]
          dsimp only
          refine ⟨?_, ?_, rfl, ?_, ?_⟩
          · rw [withStates_map_states rest _
              (scanItems_states_length env rest ov (some (i, g)) foc)]
          · rw [scanItems_lastVisible_some env rest ov (i, g) foc]
          · intro h
            rw [h]
            exact scanItems_overflowing_of_start env rest (some (i, g)) foc
          · intro h1ov h2ov
            refine ⟨h2ov, ⟨(i, g, st), rest, rfl, ?_⟩⟩
            rw [scanItems_lastVisible_some env rest ov (i, g) foc]
        | false =>
          have hstvis : st.hidden = false := by
            cases h : st.hidden
            · rfl
            · rw [showEl_snd_of_hidden st h] at hsh
              cases hsh
          have hse : showEl st = (st, false) := showEl_noop_of_visible st hstvis
          rw [scanItems_cons_show_stop env i g st rest ov foc hc hcol hsh]
          rw [hse]
          dsimp only
          simp only [withStates, withStates_self]
          rw [scanItems_cons_show_stop env i g st rest ov foc2 hc hcol hsh]
          rw [hse]
          dsimp only
          refine ⟨rfl, rfl, rfl, fun h => h, fun h1ov h2ov => ?_⟩
          rw [h1ov] at h2ov
          cases h2ov

theorem withStates_eq_zipWith (l : List (Nat × ItemGeom × ItemState)) :
    ∀ sts, withStates l sts = List.zipWith (fun e st => (e.1, e.2.1, st)) l sts := by
  induction l with
  | nil => intro sts; cases sts <;> rfl
  | cons e rest ih =>
    intro sts
    obtain ⟨i, g, st0⟩ := e
    cases sts with
    | nil => rfl
    | cons a b =>
      simp only [withStates, List.zipWith_cons_cons, ih]

theorem enumFrom_zip_zipWith (geoms : List ItemGeom) :
    ∀ (sts u : List ItemState) (n : Nat), u.length = (geoms.zip sts).length →
      (geoms.zip u).enumFrom n
        = List.zipWith (fun e st => (e.1, e.2.1, st)) ((geoms.zip sts).enumFrom n) u := by
  induction geoms with
  | nil =>
    intro sts u n h
    rw [show ([] : List ItemGeom).zip sts = [] from rfl] at h
    simp only [List.length_nil] at h
    cases u with
    | nil => rfl
    | cons a b => simp at h
  | cons g gs ih =>
    intro sts u n h
    cases sts with
    | nil =>
      simp only [List.zip_nil_right, List.length_nil] at h
      cases u with
      | nil => rfl
      | cons a b => simp at h
    | cons s ss =>
      cases u with
      | nil => simp [List.length_zip] at h
      | cons a us =>
        simp only [List.zip_cons_cons, List.enumFrom_cons, List.zipWith_cons_cons]
        rw [ih ss us (n + 1) (by simp [List.length_zip] at h ⊢; omega)]

/-- Glue: the scan input built from the states a previous scan wrote back
(in DOM order) equals the previous scan input with its states replaced by
the previous scan's output. -/
theorem revIndexed_zip_withStates (geoms : List ItemGeom) (sts rs : List ItemState)
    (h : rs.length = (geoms.zip sts).length) :
    revIndexed (geoms.zip rs.reverse) = withStates (revIndexed (geoms.zip sts)) rs := by
  rw [withStates_eq_zipWith]
  simp only [revIndexed]
  rw [show (geoms.zip rs.reverse).enum = (geoms.zip rs.reverse).enumFrom 0 from rfl,
    show (geoms.zip sts).enum = (geoms.zip sts).enumFrom 0 from rfl]
  rw [enumFrom_zip_zipWith geoms sts rs.reverse 0 (by simpa using h)]
  rw [List.reverse_zipWith (by simp [List.enumFrom_length, h])]
  rw [List.reverse_reverse]

/-- Overflow-branch projections of a pass: the indicator style written by
setOverflowPosition over the absolute-positioned previous style, and the
final index determined by the recorded last visible item. -/
theorem hideOverflowItems_overflow_proj (env : PassEnv) (refs : RefsPresent)
    (s : PassState) (h1 : refs.overflowContainer = true) (h2 : refs.overflowItem = true)
    (h3 : refs.offsetMeasure = true)
    (hb : ((passScan env s).isOverflowing || env.overflowOpen) = true) :
    (hideOverflowItems env refs s).overflowStyle
        = (setOverflowPosition env (passScan env s).lastVisible
            (absolutePositioningOffset env)
            { s.overflowStyle with position := some "absolute" }).1 ∧
    (hideOverflowItems env refs s).lastVisibleItemIndex
        = (match (passScan env s).lastVisible with
           | some (i, _) => (i : Int)
           | none => -1) := by
  constructor
  · simp only [hideOverflowItems, h1, h2, h3, Bool.and_self, Bool.true_and, hb, if_true]
  · simp only [hideOverflowItems, h1, h2, h3, Bool.and_self, Bool.true_and, hb, if_true]
    cases hlv : (passScan env s).lastVisible with
    | none =>
      simp only [setOverflowPosition]
      split_ifs <;> rfl
    | some p =>
      obtain ⟨i, g⟩ := p
      simp only [setOverflowPosition]
      split_ifs <;> rfl

/-- Else-branch projections of a pass: style untouched and the index set to
the item count minus one. -/
theorem hideOverflowItems_else_proj (env : PassEnv) (refs : RefsPresent)
    (s : PassState) (h1 : refs.overflowContainer = true) (h2 : refs.overflowItem = true)
    (h3 : refs.offsetMeasure = true)
    (hb : ((passScan env s).isOverflowing || env.overflowOpen) = false) :
    (hideOverflowItems env refs s).overflowStyle = s.overflowStyle ∧
    (hideOverflowItems env refs s).lastVisibleItemIndex
        = (env.itemGeoms.length : Int) - 1 := by
  constructor
  · simp only [hideOverflowItems, h1, h2, h3, Bool.and_self, Bool.true_and, hb,
      Bool.false_eq_true, if_false, if_true]
  · simp only [hideOverflowItems, h1, h2, h3, Bool.and_self, Bool.true_and, hb,
      Bool.false_eq_true, if_false, if_true]

/-- Repositioning over an already written style produces the same style. -/
theorem setOverflowPosition_restyle (env : PassEnv) (lv : Option (Nat × ItemGeom))
    (off : PositionOffset) (st : OverflowItemStyle) :
    (setOverflowPosition env lv off
      { (setOverflowPosition env lv off { st with position := some "absolute" }).1
        with position := some "absolute" }).1
      = (setOverflowPosition env lv off { st with position := some "absolute" }).1 := by
  cases lv with
  | none =>
    simp only [setOverflowPosition]
    split_ifs <;> rfl
  | some p =>
    obtain ⟨i, g⟩ := p
    simp only [setOverflowPosition]
    split_ifs <;> rfl

/-- C5: running a pass twice in succession with unchanged geometry produces
the identical per-item element states (hence the identical set of visible
items), the identical last-visible index, and the identical
overflow-indicator inline style as running it once. -/
theorem c5_pass_idempotent (env : PassEnv) (refs : RefsPresent) (s : PassState)
    (hlen : s.itemStates.length = env.itemGeoms.length) :
    (hideOverflowItems env refs (hideOverflowItems env refs s)).itemStates
        = (hideOverflowItems env refs s).itemStates ∧
    (hideOverflowItems env refs (hideOverflowItems env refs s)).lastVisibleItemIndex
        = (hideOverflowItems env refs s).lastVisibleItemIndex ∧
    (hideOverflowItems env refs (hideOverflowItems env refs s)).overflowStyle
        = (hideOverflowItems env refs s).overflowStyle := by
  by_cases href : (refs.overflowContainer && refs.overflowItem && refs.offsetMeasure) = true
  case neg =>
    have h0 : ∀ s2 : PassState, hideOverflowItems env refs s2 = s2 := by
      intro s2
      unfold hideOverflowItems
      rw [if_neg href]
    simp [h0]
  case pos =>
    obtain ⟨⟨h1, h2⟩, h3⟩ : (refs.overflowContainer = true ∧ refs.overflowItem = true) ∧
        refs.offsetMeasure = true := by
      simpa only [Bool.and_eq_true] using href
    have hzlen : (passScan env s).states.length
        = (env.itemGeoms.zip s.itemStates).length := by
      show (scanItems env (revIndexed (env.itemGeoms.zip s.itemStates)) false none
          s.focused).states.length = _
      rw [scanItems_states_length]
      simp [revIndexed]
    have hs1states : (hideOverflowItems env refs s).itemStates
        = (passScan env s).states.reverse :=
      hideOverflowItems_itemStates env refs s h1 h2 h3
    have hglue := revIndexed_zip_withStates env.itemGeoms s.itemStates
      (passScan env s).states hzlen
    have hpass2 : passScan env (hideOverflowItems env refs s)
        = scanItems env (withStates (revIndexed (env.itemGeoms.zip s.itemStates))
            (passScan env s).states) false none
            (hideOverflowItems env refs s).focused := by
      show scanItems env (revIndexed (env.itemGeoms.zip
          (hideOverflowItems env refs s).itemStates)) false none
          (hideOverflowItems env refs s).focused = _
      rw [hs1states, hglue]
    obtain ⟨m1, m2, m3, m4, m5⟩ := scanItems_rerun env
      (revIndexed (env.itemGeoms.zip s.itemStates)) false s.focused
      (hideOverflowItems env refs s).focused
    have hps : scanItems env (revIndexed (env.itemGeoms.zip s.itemStates)) false none
        s.focused = passScan env s := rfl
    rw [hps] at m1 m2 m4 m5
    rw [← hpass2] at m1 m2 m4 m5
    have c1 : (hideOverflowItems env refs (hideOverflowItems env refs s)).itemStates
        = (hideOverflowItems env refs s).itemStates := by
      rw [hideOverflowItems_itemStates env refs (hideOverflowItems env refs s) h1 h2 h3,
        m1, ← hs1states]
    refine ⟨c1, ?_⟩
    by_cases hb2 : ((passScan env (hideOverflowItems env refs s)).isOverflowing
        || env.overflowOpen) = true
    · have hb1 : ((passScan env s).isOverflowing || env.overflowOpen) = true := by
        have hx := hb2
        rw [Bool.or_eq_true] at hx
        rw [Bool.or_eq_true]
        rcases hx with hx | hx
        · exact Or.inl (m4 hx)
        · exact Or.inr hx
      obtain ⟨p2s, p2i⟩ := hideOverflowItems_overflow_proj env refs
        (hideOverflowItems env refs s) h1 h2 h3 hb2
      obtain ⟨p1s, p1i⟩ := hideOverflowItems_overflow_proj env refs s h1 h2 h3 hb1
      constructor
      · rw [p2i, p1i, m2]
      · rw [p2s, p1s, m2]
        exact setOverflowPosition_restyle env (passScan env s).lastVisible
          (absolutePositioningOffset env) s.overflowStyle
    · have hb2f : ((passScan env (hideOverflowItems env refs s)).isOverflowing
          || env.overflowOpen) = false := by
        cases hx : ((passScan env (hideOverflowItems env refs s)).isOverflowing
            || env.overflowOpen)
        · rfl
        · exact absurd hx hb2
      have hov2 : (passScan env (hideOverflowItems env refs s)).isOverflowing = false ∧
          env.overflowOpen = false := by
        rwa [Bool.or_eq_false_iff] at hb2f
      obtain ⟨p2s, p2i⟩ := hideOverflowItems_else_proj env refs
        (hideOverflowItems env refs s) h1 h2 h3 hb2f
      by_cases hb1 : ((passScan env s).isOverflowing || env.overflowOpen) = true
      · have hov1 : (passScan env s).isOverflowing = true := by
          have hx := hb1
          rw [Bool.or_eq_true] at hx
          rcases hx with hx | hx
          · exact hx
          · rw [hov2.2] at hx
            cases hx
        obtain ⟨-, e, rest, hL, hlv⟩ := m5 hov1 hov2.1
        obtain ⟨p1s, p1i⟩ := hideOverflowItems_overflow_proj env refs s h1 h2 h3 hb1
        have hk : (env.itemGeoms.zip s.itemStates).length = env.itemGeoms.length := by
          simp [List.length_zip, hlen]
        have hLlen : (revIndexed (env.itemGeoms.zip s.itemStates)).length
            = env.itemGeoms.length := by
          simp [revIndexed, List.enum_length, hk]
        have hpos : 1 ≤ env.itemGeoms.length := by
          rw [hL] at hLlen
          simp at hLlen
          omega
        have h0q : (revIndexed (env.itemGeoms.zip s.itemStates))[0]? = some e := by
          rw [hL]
          exact List.getElem?_cons_zero
        have hL0 : 0 < (revIndexed (env.itemGeoms.zip s.itemStates)).length := by
          rw [hLlen]
          omega
        have h0b : (revIndexed (env.itemGeoms.zip s.itemStates))[0]?
            = some ((revIndexed (env.itemGeoms.zip s.itemStates))[0]) :=
          List.getElem?_eq_getElem _
        have he : e = (revIndexed (env.itemGeoms.zip s.itemStates))[0] := by
          rw [h0q] at h0b
          exact Option.some_inj.1 h0b
        have hfst : ((revIndexed (env.itemGeoms.zip s.itemStates))[0]).1
            = env.itemGeoms.length - 1 := by
          simp only [revIndexed]
          rw [List.getElem_reverse]
          rw [List.getElem_enum]
          simp [List.enum_length, hk]
        have he1 : e.1 = env.itemGeoms.length - 1 := by
          rw [he]
          exact hfst
        constructor
        · rw [p2i, p1i]
          simp only [hlv]
          rw [he1]
          omega
        · exact p2s
      · have hb1f : ((passScan env s).isOverflowing || env.overflowOpen) = false := by
          cases hx : ((passScan env s).isOverflowing || env.overflowOpen)
          · rfl
          · exact absurd hx hb1
        obtain ⟨p1s, p1i⟩ := hideOverflowItems_else_proj env refs s h1 h2 h3 hb1f
        exact ⟨by rw [p2i, p1i], p2s⟩

/-- Witness for c5_pass_idempotent at the concrete three-item scenario. -/
theorem c5_pass_idempotent_witness :
    startThreeItems.itemStates.length = envThreeItems.itemGeoms.length ∧
    (hideOverflowItems envThreeItems allRefsPresent
        (hideOverflowItems envThreeItems allRefsPresent startThreeItems)).itemStates
      = (hideOverflowItems envThreeItems allRefsPresent startThreeItems).itemStates ∧
    (hideOverflowItems envThreeItems allRefsPresent
        (hideOverflowItems envThreeItems allRefsPresent
          startThreeItems)).lastVisibleItemIndex
      = (hideOverflowItems envThreeItems allRefsPresent
          startThreeItems).lastVisibleItemIndex ∧
    (hideOverflowItems envThreeItems allRefsPresent
        (hideOverflowItems envThreeItems allRefsPresent startThreeItems)).overflowStyle
      = (hideOverflowItems envThreeItems allRefsPresent startThreeItems).overflowStyle :=
  ⟨rfl, c5_pass_idempotent envThreeItems allRefsPresent startThreeItems rfl⟩
